import Mathlib

/-!
Shallow embedding of src/tracker.py (a Playwright price tracker with
Telegram alerts) and proofs about its extraction, logging, alerting and
notification behaviour.

Modelling conventions:
* Python strings are Lean `String`s; `str.isdigit` is modelled on ASCII
  digits via `Char.isDigit`, and `int(digits)` on a nonempty all-digit
  string is the decimal value, a natural number cast to `Int`.
* The Playwright page object is abstracted as a `Page`: the outcome of
  `page.goto`, whether the screenshot succeeds, the behaviour of
  `page.locator(sel)` / `inner_text` for each selector string, and the
  outcome of `page.content()`.
* Python exceptions are threaded explicitly with `Except String`:
  a `.error e` value is an uncaught exception propagating to the caller;
  every `try`/`except` in the source becomes a `match` that turns
  `.error` back into a normal value.
-/

namespace Tracker

/-- Outcome of `page.goto(url, ...)` at line 60 of tracker.py: normal
completion, a `PWTimeout` (caught at line 61), or any other exception
(not caught anywhere in the function). -/
inductive GotoResult where
  | ok
  | timeout
  | fatal (e : String)
deriving DecidableEq

/-- Outcome of querying one selector: `loc.count() == 0` (absent), an
exception from the locator or from `inner_text` (err, caught at line
108), or the element text returned by `inner_text`. -/
inductive SelResult where
  | absent
  | err (e : String)
  | text (t : String)
deriving DecidableEq

/-- Abstraction of the rendered Playwright page a single `goto` produces:
everything `fetch_price_playwright` can observe about it. -/
structure Page where
  goto : GotoResult
  screenshotOk : Bool
  selText : String → SelResult
  content : Except String String

/-- Lines 103 of tracker.py: `"".join(ch for ch in txt if ch.isdigit())`,
kept as a character list. -/
def stripDigits (s : String) : List Char :=
  s.data.filter Char.isDigit

/-- Decimal value of a list of digit characters, as `int()` computes it
on a nonempty all-digit string. -/
def digitsNat (cs : List Char) : Nat :=
  cs.foldl (fun acc c => 10 * acc + (c.toNat - 48)) 0

/-- The text-to-price normalisation step of lines 103-105 of tracker.py
(the spec's `normalize`): strip non-digits; if nothing remains the step
fails (the code falls through to the next candidate), otherwise the
digit string is converted with `int`. -/
def normalize (s : String) : Option Int :=
  if stripDigits s = [] then none
  else some (Int.ofNat (digitsNat (stripDigits s)))

/-- Lines 78-83 of tracker.py: the flipkart selector candidates. -/
def flipkartSelectors : List String :=
  ["div._30jeq3._16Jk6d", "div._30jeq3", "div._25b18c", "span._2dXhWJ"]

/-- Lines 85-91 of tracker.py: the amazon selector candidates. -/
def amazonSelectors : List String :=
  ["span.a-price-whole", "#priceblock_ourprice", "#priceblock_dealprice",
   "span#priceblock_saleprice", "span.a-offscreen"]

/-- Line 93 of tracker.py: the default selector candidates. -/
def defaultSelectors : List String :=
  ["span.price", "div.price", "p.price"]

/-- Substring containment on character lists, modelling Python's
`needle in haystack`. -/
def containsSubstr (needle : List Char) : List Char → Bool
  | [] => needle.isEmpty
  | c :: cs => List.isPrefixOf needle (c :: cs) || containsSubstr needle cs

/-- Python `str.lower`, modelled on ASCII letters characterwise (URLs in
this program are ASCII). -/
def strToLower (s : String) : String :=
  String.mk (s.data.map Char.toLower)

/-- Lines 74-93 of tracker.py: classify the lowercased URL into a site
family and return that family's ordered selector list. -/
def selectorsFor (url : String) : List String :=
  let u := strToLower url
  if containsSubstr "flipkart".data u.data then flipkartSelectors
  else if containsSubstr "amazon.".data u.data then amazonSelectors
  else defaultSelectors

/-- Whitespace characters matched by the regex class backslash-s and by
Python `str.strip` (ASCII approximation). -/
def isSpace (c : Char) : Bool :=
  c == ' ' || c == '\t' || c == '\n' || c == '\r' || c.toNat == 11 || c.toNat == 12

/-- Python `str.strip()` as applied to the selector text at line 101 of
tracker.py: drop leading and trailing whitespace. -/
def pyStrip (s : String) : String :=
  String.mk (((s.data.dropWhile isSpace).reverse.dropWhile isSpace).reverse)

/-- Lines 96-110 of tracker.py: walk the selector candidates in order.
An absent element (`count() == 0`) or a per-candidate exception means
"try the next candidate"; text whose normalisation succeeds is returned
immediately; text with no digits also falls through to the next
candidate. -/
def trySelectors (sx : String → SelResult) : List String → Option Int
  | [] => none
  | sel :: rest =>
    match sx sel with
    | SelResult.absent => trySelectors sx rest
    | SelResult.err _ => trySelectors sx rest
    | SelResult.text t =>
      match normalize (pyStrip t) with
      | some n => some n
      | none => trySelectors sx rest

/-- The characters of the HTML-entity form of the rupee sign used in the
fallback regex at line 115 of tracker.py. -/
def entityChars : List Char :=
  "&#8377;".data

/-- Match the alternation (rupee sign or its HTML entity) at the head of
the input, returning the remainder; the literal symbol is tried first as
in the regex alternation at line 115 of tracker.py. -/
def matchSym : List Char → Option (List Char)
  | [] => none
  | c :: cs =>
    if c = '₹' then some cs
    else if List.isPrefixOf entityChars (c :: cs) then
      some (List.drop entityChars.length (c :: cs))
    else none

/-- Match the whole pattern of line 115 of tracker.py at the head of the
input: currency symbol, greedy whitespace, then a nonempty greedy run of
digits and commas; the returned characters are capture group 2. -/
def matchAt (cs : List Char) : Option (List Char) :=
  match matchSym cs with
  | none => none
  | some rest =>
    let run := (rest.dropWhile isSpace).takeWhile (fun c => c.isDigit || c == ',')
    if run = [] then none else some run

/-- Leftmost search of the pattern over the page content, as `re.search`
performs it at line 115 of tracker.py: try each start position from the
left, returning capture group 2 of the first position that matches. -/
def reSearch : List Char → Option (List Char)
  | [] => none
  | c :: cs =>
    match matchAt (c :: cs) with
    | some g => some g
    | none => reSearch cs

/-- Lines 113-123 of tracker.py: the regex fallback over
`page.content()`. An exception from `content()` is caught (line 122) and
yields no price; a regex match has its group 2 digit-stripped and
converted exactly as in the selector loop, an empty digit result again
yielding no price. -/
def regexFallback (content : Except String String) : Option Int :=
  match content with
  | Except.error _ => none
  | Except.ok c =>
    match reSearch c.data with
    | none => none
    | some g => normalize (String.mk g)

/-- Lines 57-126 of tracker.py: `fetch_price_playwright(page, url,
product_id)`. A non-timeout exception from `goto` propagates (nothing
catches it); a timeout is tolerated and extraction proceeds with
whatever loaded; the screenshot and the fixed wait never affect the
result. Then the family's selectors are tried in order and, if all
fail, the regex fallback; `.ok none` is the `return None` (NOT_FOUND)
outcome. -/
def fetch_price_playwright (page : Page) (url : String) (product_id : String) :
    Except String (Option Int) :=
  match page.goto with
  | GotoResult.fatal e => Except.error e
  | _ =>
    match trySelectors page.selText (selectorsFor url) with
    | some n => Except.ok (some n)
    | none => Except.ok (regexFallback page.content)

/-- True exactly on the `fatal` constructor of `GotoResult`. -/
def gotoFatal : GotoResult → Bool
  | GotoResult.fatal _ => true
  | _ => false

/-- One selector candidate fails on a page: the element is absent, the
query raised, or its text has no digits. -/
def selFailsB (sx : String → SelResult) (sel : String) : Bool :=
  match sx sel with
  | SelResult.text t => (normalize (pyStrip t)).isNone
  | _ => true

/-- One row of price_log.csv as written at line 189 of tracker.py; the
timestamp column is not modelled (no claim concerns it). A row is only
ever written with an actual integer price. -/
structure LogRow where
  pid : String
  name : String
  price : Int
deriving DecidableEq

/-- The observable side effects accumulated by `run_flow`: rows appended
to the price log, messages passed to `send_telegram`, and warning lines
printed to standard output. -/
structure RunState where
  log : List LogRow
  telegram : List String
  stdout : List String
deriving DecidableEq

/-- One entry of the `products` array of config.json, as `run_flow`
reads it at lines 176-179 of tracker.py: `product["id"]`,
`product["name"]` and `product["url"]` raise `KeyError` when missing
(modelled by `none`), while `target_price` is read with `.get`. -/
structure Product where
  id : Option String
  name : Option String
  url : Option String
  target_price : Option Int

/-- Result of one pipeline run: either the loop completed, or an
uncaught exception aborted it, leaving the side effects accumulated so
far. -/
inductive RunResult where
  | completed (st : RunState)
  | aborted (st : RunState) (err : String)
deriving DecidableEq

/-- The alert text built at line 193 of tracker.py. -/
def alertMsg (name : String) (price target : Int) (url : String) : String :=
  "Price alert: " ++ name ++ " is now ₹" ++ toString price ++
    " (target " ++ toString target ++ ")\n" ++ url

/-- The warning line printed at line 197 of tracker.py when no price
could be extracted. -/
def warnMsg (name : String) : String :=
  "[WARN] Could not extract price for " ++ name ++ ". See screenshot."

/-- Lines 176-197 of tracker.py: the body of the per-product loop of
`run_flow`. The three mandatory keys are read first (a missing one
raises `KeyError`); then the price is fetched (its exceptions
propagate); a present price appends a log row and, when the target is
truthy (Python `if target and price <= target`, so `None` and `0` are
both falsy) and the price is at or below it, records the Telegram alert
call; an absent price only prints a warning. -/
def processProduct (world : String → Page) (st : RunState) (p : Product) :
    Except String RunState :=
  match p.id with
  | none => Except.error "KeyError: id"
  | some pid =>
    match p.name with
    | none => Except.error "KeyError: name"
    | some name =>
      match p.url with
      | none => Except.error "KeyError: url"
      | some url =>
        match fetch_price_playwright (world url) url pid with
        | Except.error e => Except.error e
        | Except.ok price =>
          match price with
          | some pr =>
            let st1 : RunState := ⟨st.log ++ [⟨pid, name, pr⟩], st.telegram, st.stdout⟩
            match p.target_price with
            | some t =>
              if t != 0 && decide (pr ≤ t) then
                Except.ok ⟨st1.log, st1.telegram ++ [alertMsg name pr t url], st1.stdout⟩
              else Except.ok st1
            | none => Except.ok st1
          | none => Except.ok ⟨st.log, st.telegram, st.stdout ++ [warnMsg name]⟩

/-- Lines 175-197 of tracker.py: the product loop of `run_flow`,
abstracted over a `world` assigning to each URL the page behaviour that
navigating to it produces. An exception escaping one product's
processing aborts the loop; there is no try/except around the loop
body. -/
def run_flow (world : String → Page) : List Product → RunState → RunResult
  | [], st => RunResult.completed st
  | p :: ps, st =>
    match processProduct world st p with
    | Except.ok st1 => run_flow world ps st1
    | Except.error e => RunResult.aborted st e

/-- The accumulated side effects of a run result. -/
def stateOf : RunResult → RunState
  | RunResult.completed st => st
  | RunResult.aborted st _ => st

/-- Whether a run result is a normal completion. -/
def isCompleted : RunResult → Bool
  | RunResult.completed _ => true
  | RunResult.aborted _ _ => false

/-- The price-log contents of a run result. -/
def logOf (r : RunResult) : List LogRow :=
  (stateOf r).log

/-- The environment read at lines 26-27 of tracker.py: the two Telegram
credentials, each possibly unset. -/
structure TelegramEnv where
  TELEGRAM_TOKEN : Option String
  TELEGRAM_CHAT_ID : Option String

/-- Python truthiness of an optional string: set and nonempty. -/
def truthy : Option String → Bool
  | some s => !s.isEmpty
  | none => false

/-- What `send_telegram` did, as observable from its prints: the HTTP
post went through with some status, the post raised and the error was
logged, or the credentials were missing and nothing was attempted. -/
inductive SendOutcome where
  | posted (status : Nat)
  | sendFailedLogged (e : String)
  | notConfigured
deriving DecidableEq

/-- Lines 34-45 of tracker.py: `send_telegram(message)`. The `post`
argument abstracts the outcome of `requests.post` (a status code or a
raised exception). With both credentials truthy the post is attempted
and any exception is caught and logged (lines 36-43); otherwise the
function logs that Telegram is not configured. The `Except` result type
records whether an exception escapes to the caller. -/
def send_telegram (env : TelegramEnv) (post : Except String Nat)
    (message : String) : Except String SendOutcome :=
  if truthy env.TELEGRAM_TOKEN && truthy env.TELEGRAM_CHAT_ID then
    match post with
    | Except.ok status => Except.ok (SendOutcome.posted status)
    | Except.error e => Except.ok (SendOutcome.sendFailedLogged e)
  else
    Except.ok SendOutcome.notConfigured

/-- True exactly when an invocation of `send_telegram` returned to its
caller normally rather than by propagating an exception. -/
def neverRaises : Except String SendOutcome → Bool
  | Except.ok _ => true
  | Except.error _ => false

/-- The log row that one product contributes to a completed run: its
mandatory keys with the fetched price when extraction succeeds, nothing
when extraction returns NOT_FOUND. -/
def expectedRow (world : String → Page) (p : Product) : Option LogRow :=
  match p.id, p.name, p.url with
  | some pid, some name, some url =>
    match fetch_price_playwright (world url) url pid with
    | Except.ok (some pr) => some ⟨pid, name, pr⟩
    | _ => none
  | _, _, _ => none

/-- A product whose processing cannot raise: all three mandatory keys
are present and navigating to its URL does not raise a non-timeout
exception. -/
def productOkB (world : String → Page) (p : Product) : Bool :=
  match p.id, p.name, p.url with
  | some _, some _, some url => !(gotoFatal (world url).goto)
  | _, _, _ => false

/-- Fixture: a page on which every selector query finds nothing and the
content is empty, so extraction returns NOT_FOUND. -/
def pageAbsent : Page :=
  ⟨GotoResult.ok, true, fun _ => SelResult.absent, Except.ok ""⟩

/-- Fixture: a page whose generic `span.price` element carries the given
text and whose other selectors find nothing. -/
def pagePrice (t : String) : Page :=
  ⟨GotoResult.ok, true,
    fun s => if s = "span.price" then SelResult.text t else SelResult.absent,
    Except.ok ""⟩

/-- Fixture: a page whose navigation raises a non-timeout exception. -/
def pageFatal (e : String) : Page :=
  ⟨GotoResult.fatal e, true, fun _ => SelResult.absent, Except.ok ""⟩

/-- Fixture: an amazon-style page exposing both a whole-price element
and a separate fraction element. -/
def pageAmazonWF : Page :=
  ⟨GotoResult.ok, true,
    fun s =>
      if s = "span.a-price-whole" then SelResult.text "1,299"
      else if s = "span.a-price-fraction" then SelResult.text "99"
      else SelResult.absent,
    Except.ok ""⟩

/-- Fixture: the same amazon-style page without the fraction element. -/
def pageAmazonNoFraction : Page :=
  ⟨GotoResult.ok, true,
    fun s =>
      if s = "span.a-price-whole" then SelResult.text "1,299"
      else SelResult.absent,
    Except.ok ""⟩

/-- Fixture: a flipkart-style page on which only the third and fourth
selector candidates match. -/
def pageFlipkartThird : Page :=
  ⟨GotoResult.ok, true,
    fun s =>
      if s = "div._25b18c" then SelResult.text "₹999"
      else if s = "span._2dXhWJ" then SelResult.text "₹111"
      else SelResult.absent,
    Except.ok ""⟩

/-- Fixture: a page with no matching selector whose raw content holds an
entity-encoded currency-prefixed price. -/
def pageRegexOnly : Page :=
  ⟨GotoResult.ok, true, fun _ => SelResult.absent,
    Except.ok "sale &#8377; 12,499 now"⟩

/-- C2. Text-to-price normalisation is total: for any input string it
returns either a non-negative integer or failure, never a negative
number, and it fails exactly when the digit-only residue of the input is
empty. -/
theorem normalize_total (s : String) :
    (normalize s = none ↔ stripDigits s = []) ∧
    (∀ n : Int, normalize s = some n → 0 ≤ n) := by
  constructor
  · constructor
    · intro h
      by_contra hne
      simp [normalize, hne] at h
    · intro h
      simp [normalize, h]
  · intro n hn
    by_cases h : stripDigits s = []
    · simp [normalize, h] at hn
    · simp [normalize, h] at hn
      rw [← hn]
      exact Int.ofNat_nonneg _

/-- Witness for C2 at the spec's own examples: an error string
normalises to failure, and the value extracted from an Indian-format
price tag is non-negative. -/
theorem normalize_total_witness :
    normalize "Out of stock" = none ∧ (0 : Int) ≤ 129990 :=
  ⟨(normalize_total "Out of stock").1.mpr (by decide),
   (normalize_total "₹1,29,990").2 129990 (by decide)⟩

/-- If every candidate in a list fails on a page, walking the list
yields no price. -/
theorem trySelectors_all_fail (sx : String → SelResult) :
    ∀ ss : List String, (∀ s ∈ ss, selFailsB sx s = true) →
      trySelectors sx ss = none := by
  intro ss
  induction ss with
  | nil => intro _; rfl
  | cons sel rest ih =>
    intro h
    have hsel := h sel (List.mem_cons_self sel rest)
    have hrest := ih (fun s hs => h s (List.mem_cons_of_mem sel hs))
    cases hx : sx sel with
    | absent => simpa [trySelectors, hx] using hrest
    | err e => simpa [trySelectors, hx] using hrest
    | text t =>
      have hz : normalize (pyStrip t) = none := by
        simpa [selFailsB, hx, Option.isNone_iff_eq_none] using hsel
      simpa [trySelectors, hx, hz] using hrest

/-- Walking a candidate list whose prefix fails and whose next candidate
normalises returns that candidate's value, whatever follows it. -/
theorem trySelectors_first_success (sx : String → SelResult) (sel t : String)
    (n : Int) (ss2 : List String)
    (htext : sx sel = SelResult.text t)
    (hn : normalize (pyStrip t) = some n) :
    ∀ ss1 : List String, (∀ s ∈ ss1, selFailsB sx s = true) →
      trySelectors sx (ss1 ++ sel :: ss2) = some n := by
  intro ss1
  induction ss1 with
  | nil => intro _; simp [trySelectors, htext, hn]
  | cons s0 rest ih =>
    intro hfail
    have h0 := hfail s0 (List.mem_cons_self s0 rest)
    have hrest := ih (fun s hs => hfail s (List.mem_cons_of_mem s0 hs))
    cases hx : sx s0 with
    | absent => simpa [trySelectors, hx] using hrest
    | err e => simpa [trySelectors, hx] using hrest
    | text t0 =>
      have hz : normalize (pyStrip t0) = none := by
        simpa [selFailsB, hx, Option.isNone_iff_eq_none] using h0
      simpa [trySelectors, hx, hz] using hrest

/-- Walking a candidate list only consults the page at the listed
selectors. -/
theorem trySelectors_congr (sx1 sx2 : String → SelResult) :
    ∀ ss : List String, (∀ s ∈ ss, sx1 s = sx2 s) →
      trySelectors sx1 ss = trySelectors sx2 ss := by
  intro ss
  induction ss with
  | nil => intro _; rfl
  | cons sel rest ih =>
    intro h
    have hsel := h sel (List.mem_cons_self sel rest)
    have hrest := ih (fun s hs => h s (List.mem_cons_of_mem sel hs))
    cases hx : sx2 sel with
    | absent => simp [trySelectors, hsel.trans hx, hx, hrest]
    | err e => simp [trySelectors, hsel.trans hx, hx, hrest]
    | text t => simp [trySelectors, hsel.trans hx, hx, hrest]

/-- Extraction only raises when navigation raises a non-timeout
exception: otherwise it returns some outcome normally. -/
theorem fetch_not_fatal (page : Page) (url pid : String)
    (h : gotoFatal page.goto = false) :
    ∃ v, fetch_price_playwright page url pid = Except.ok v := by
  cases hgp : page.goto with
  | fatal e => rw [hgp] at h; simp [gotoFatal] at h
  | ok =>
    cases ht : trySelectors page.selText (selectorsFor url) with
    | some n => exact ⟨some n, by simp [fetch_price_playwright, hgp, ht]⟩
    | none => exact ⟨regexFallback page.content, by simp [fetch_price_playwright, hgp, ht]⟩
  | timeout =>
    cases ht : trySelectors page.selText (selectorsFor url) with
    | some n => exact ⟨some n, by simp [fetch_price_playwright, hgp, ht]⟩
    | none => exact ⟨regexFallback page.content, by simp [fetch_price_playwright, hgp, ht]⟩

/-- C5. Extraction tries the family's selector candidates strictly in
listed order and returns the first candidate whose (stripped) text
normalises to a price; the result does not depend on any later
candidate. -/
theorem fetch_first_selector_success (page : Page) (url product_id : String)
    (ss1 ss2 : List String) (sel t : String) (n : Int)
    (hg : gotoFatal page.goto = false)
    (hsplit : selectorsFor url = ss1 ++ sel :: ss2)
    (hfail : ∀ s ∈ ss1, selFailsB page.selText s = true)
    (htext : page.selText sel = SelResult.text t)
    (hn : normalize (pyStrip t) = some n) :
    fetch_price_playwright page url product_id = Except.ok (some n) := by
  have hts : trySelectors page.selText (selectorsFor url) = some n := by
    rw [hsplit]
    exact trySelectors_first_success page.selText sel t n ss2 htext hn ss1 hfail
  cases hgp : page.goto with
  | fatal e => rw [hgp] at hg; simp [gotoFatal] at hg
  | ok => simp [fetch_price_playwright, hgp, hts]
  | timeout => simp [fetch_price_playwright, hgp, hts]

/-- Witness for C5: on a flipkart page where only the third candidate
(and a fourth, which must be ignored) matches, extraction returns the
third candidate's normalised value. -/
theorem fetch_first_selector_success_witness :
    fetch_price_playwright pageFlipkartThird "https://www.flipkart.com/item" "p5" =
      Except.ok (some 999) :=
  fetch_first_selector_success pageFlipkartThird "https://www.flipkart.com/item" "p5"
    ["div._30jeq3._16Jk6d", "div._30jeq3"] ["span._2dXhWJ"] "div._25b18c" "₹999" 999
    (by decide) (by decide) (by decide) (by decide) (by decide)

/-- C6. The regex fallback runs only once every selector candidate of
the applicable family has failed: extraction then returns exactly the
fallback's outcome, and when the raw content's first
currency-symbol-prefixed digit/comma run exists, extraction returns
that run's normalised value (NOT_FOUND when that normalisation also
fails). -/
theorem fetch_regex_fallback_spec (page : Page) (url product_id : String)
    (hg : gotoFatal page.goto = false)
    (hfail : ∀ s ∈ selectorsFor url, selFailsB page.selText s = true) :
    fetch_price_playwright page url product_id = Except.ok (regexFallback page.content) ∧
    (∀ (c : String) (g : List Char),
      page.content = Except.ok c → reSearch c.data = some g →
      fetch_price_playwright page url product_id = Except.ok (normalize (String.mk g))) := by
  have hts := trySelectors_all_fail page.selText (selectorsFor url) hfail
  have h1 : fetch_price_playwright page url product_id =
      Except.ok (regexFallback page.content) := by
    cases hgp : page.goto with
    | fatal e => rw [hgp] at hg; simp [gotoFatal] at hg
    | ok => simp [fetch_price_playwright, hgp, hts]
    | timeout => simp [fetch_price_playwright, hgp, hts]
  refine ⟨h1, ?_⟩
  intro c g hc hsearch
  rw [h1, hc]
  simp [regexFallback, hsearch]

/-- Witness for C6: with no selector matching, the entity-encoded rupee
run in the raw content is found and normalised. -/
theorem fetch_regex_fallback_spec_witness :
    fetch_price_playwright pageRegexOnly "https://example.com/q" "p6" =
      Except.ok (some 12499) := by
  have h := (fetch_regex_fallback_spec pageRegexOnly "https://example.com/q" "p6"
    (by decide) (by decide)).2 "sale &#8377; 12,499 now"
    ['1', '2', ',', '4', '9', '9'] rfl (by decide)
  rw [h]
  rfl

/-- Counterexample to C7: on an amazon page exposing both a whole
element (text "1,299") and a fraction element (text "99"), extraction
returns 1299, not a value including the fractional digits (129999). -/
theorem amazon_fraction_counterexample :
    fetch_price_playwright pageAmazonWF "https://www.amazon.in/dp/x" "p7" =
      Except.ok (some 1299) ∧ (1299 : Int) ≠ 129999 :=
  ⟨by rfl, by decide⟩

/-- C7 (amended). Extraction reads only the selectors in the family's
candidate list (plus the raw content): two pages agreeing there yield
the same result, and the amazon fraction element is not in that list,
so it is never read or concatenated. -/
theorem fetch_ignores_unlisted_selectors (g : GotoResult) (sh1 sh2 : Bool)
    (sx1 sx2 : String → SelResult) (ct : Except String String)
    (url pid1 pid2 : String)
    (h : ∀ s ∈ selectorsFor url, sx1 s = sx2 s) :
    fetch_price_playwright ⟨g, sh1, sx1, ct⟩ url pid1 =
      fetch_price_playwright ⟨g, sh2, sx2, ct⟩ url pid2 ∧
    "span.a-price-fraction" ∉ selectorsFor "https://www.amazon.in/dp/x" := by
  constructor
  · have hts := trySelectors_congr sx1 sx2 (selectorsFor url) h
    cases g <;> simp [fetch_price_playwright, hts]
  · decide

/-- Witness for C7 (amended): the page with a fraction element and the
page without one extract identically. -/
theorem fetch_ignores_unlisted_selectors_witness :
    fetch_price_playwright ⟨GotoResult.ok, true, pageAmazonWF.selText, Except.ok ""⟩
        "https://www.amazon.in/dp/x" "p7a" =
      fetch_price_playwright ⟨GotoResult.ok, true, pageAmazonNoFraction.selText, Except.ok ""⟩
        "https://www.amazon.in/dp/x" "p7b" ∧
    "span.a-price-fraction" ∉ selectorsFor "https://www.amazon.in/dp/x" :=
  fetch_ignores_unlisted_selectors GotoResult.ok true true
    pageAmazonWF.selText pageAmazonNoFraction.selText (Except.ok "")
    "https://www.amazon.in/dp/x" "p7a" "p7b" (by decide)

/-- Processing one product whose keys are present and whose navigation
does not raise succeeds, appending exactly the product's expected row
(one row on success, none on NOT_FOUND) to the log. -/
theorem processProduct_ok (world : String → Page) (st : RunState) (p : Product)
    (h : productOkB world p = true) :
    ∃ st1, processProduct world st p = Except.ok st1 ∧
      st1.log = st.log ++ (expectedRow world p).toList := by
  cases hid : p.id with
  | none => simp [productOkB, hid] at h
  | some pid =>
    cases hname : p.name with
    | none => simp [productOkB, hid, hname] at h
    | some name =>
      cases hurl : p.url with
      | none => simp [productOkB, hid, hname, hurl] at h
      | some url =>
        have hg : gotoFatal (world url).goto = false := by
          simpa [productOkB, hid, hname, hurl] using h
        obtain ⟨v, hv⟩ := fetch_not_fatal (world url) url pid hg
        cases v with
        | none =>
          refine ⟨⟨st.log, st.telegram, st.stdout ++ [warnMsg name]⟩, ?_, ?_⟩
          · simp [processProduct, hid, hname, hurl, hv]
          · simp [expectedRow, hid, hname, hurl, hv]
        | some pr =>
          cases ht : p.target_price with
          | none =>
            refine ⟨⟨st.log ++ [⟨pid, name, pr⟩], st.telegram, st.stdout⟩, ?_, ?_⟩
            · simp [processProduct, hid, hname, hurl, hv, ht]
            · simp [expectedRow, hid, hname, hurl, hv]
          | some t =>
            by_cases hc : (t != 0 && decide (pr ≤ t)) = true
            · refine ⟨⟨st.log ++ [⟨pid, name, pr⟩],
                st.telegram ++ [alertMsg name pr t url], st.stdout⟩, ?_, ?_⟩
              · simp [processProduct, hid, hname, hurl, hv, ht, hc]
              · simp [expectedRow, hid, hname, hurl, hv]
            · rw [Bool.not_eq_true] at hc
              refine ⟨⟨st.log ++ [⟨pid, name, pr⟩], st.telegram, st.stdout⟩, ?_, ?_⟩
              · simp [processProduct, hid, hname, hurl, hv, ht, hc]
              · simp [expectedRow, hid, hname, hurl, hv]

/-- When every product's keys are present and no navigation raises, the
run completes and the final log is the initial log followed by one row
per successfully extracted product, in product order. -/
theorem run_flow_completes (world : String → Page) :
    ∀ (ps : List Product) (st : RunState),
      (∀ p ∈ ps, productOkB world p = true) →
      ∃ st1, run_flow world ps st = RunResult.completed st1 ∧
        st1.log = st.log ++ ps.filterMap (expectedRow world) := by
  intro ps
  induction ps with
  | nil => intro st _; exact ⟨st, rfl, by simp⟩
  | cons p rest ih =>
    intro st h
    obtain ⟨st1, hp, hlog⟩ := processProduct_ok world st p (h p (List.mem_cons_self p rest))
    obtain ⟨st2, hr, hlog2⟩ := ih st1 (fun q hq => h q (List.mem_cons_of_mem p hq))
    refine ⟨st2, ?_, ?_⟩
    · simp [run_flow, hp, hr]
    · rw [hlog2, hlog]
      cases hE : expectedRow world p <;>
        simp [List.filterMap_cons, hE, List.append_assoc]

/-- Counterexample to C1: a product is processed, extraction fails
(NOT_FOUND), and the run completes with an empty log — the failed
attempt appends no row at all, it is only printed as a warning. -/
theorem run_flow_failure_logs_nothing :
    run_flow (fun _ => pageAbsent)
      [⟨some "p1", some "Widget", some "https://example.com/w", none⟩] ⟨[], [], []⟩ =
      RunResult.completed ⟨[], [], [warnMsg "Widget"]⟩ := by rfl

/-- C1 (amended). On a run where every product has its keys and no
navigation raises, the pipeline completes and appends exactly one log
row per product whose extraction yields a price and no row for
NOT_FOUND products; running the pipeline a second time appends the same
rows again (no overwriting or deduplication). -/
theorem run_flow_log_rows (world : String → Page) (ps : List Product) (st : RunState)
    (h : ∀ p ∈ ps, productOkB world p = true) :
    isCompleted (run_flow world ps st) = true ∧
    logOf (run_flow world ps st) = st.log ++ ps.filterMap (expectedRow world) ∧
    isCompleted (run_flow world ps (stateOf (run_flow world ps st))) = true ∧
    logOf (run_flow world ps (stateOf (run_flow world ps st))) =
      st.log ++ ps.filterMap (expectedRow world) ++ ps.filterMap (expectedRow world) := by
  obtain ⟨st1, h1, hl1⟩ := run_flow_completes world ps st h
  obtain ⟨st2, h2, hl2⟩ := run_flow_completes world ps st1 h
  rw [h1]
  refine ⟨rfl, by simpa [logOf, stateOf] using hl1, ?_, ?_⟩
  · simp only [stateOf]
    rw [h2]
    rfl
  · simp only [stateOf]
    rw [h2]
    simp [logOf, stateOf, hl2, hl1]

/-- Witness for C1 (amended): one successfully extracted product,
run twice from an empty log. -/
theorem run_flow_log_rows_witness :
    isCompleted (run_flow (fun _ => pagePrice "₹50")
      [⟨some "w1", some "W", some "https://example.com/w1", none⟩] ⟨[], [], []⟩) = true ∧
    logOf (run_flow (fun _ => pagePrice "₹50")
      [⟨some "w1", some "W", some "https://example.com/w1", none⟩] ⟨[], [], []⟩) =
      [] ++ [⟨some "w1", some "W", some "https://example.com/w1", none⟩].filterMap
        (expectedRow (fun _ => pagePrice "₹50")) ∧
    isCompleted (run_flow (fun _ => pagePrice "₹50")
      [⟨some "w1", some "W", some "https://example.com/w1", none⟩]
      (stateOf (run_flow (fun _ => pagePrice "₹50")
        [⟨some "w1", some "W", some "https://example.com/w1", none⟩] ⟨[], [], []⟩))) = true ∧
    logOf (run_flow (fun _ => pagePrice "₹50")
      [⟨some "w1", some "W", some "https://example.com/w1", none⟩]
      (stateOf (run_flow (fun _ => pagePrice "₹50")
        [⟨some "w1", some "W", some "https://example.com/w1", none⟩] ⟨[], [], []⟩))) =
      [] ++ [⟨some "w1", some "W", some "https://example.com/w1", none⟩].filterMap
          (expectedRow (fun _ => pagePrice "₹50")) ++
        [⟨some "w1", some "W", some "https://example.com/w1", none⟩].filterMap
          (expectedRow (fun _ => pagePrice "₹50")) :=
  run_flow_log_rows (fun _ => pagePrice "₹50")
    [⟨some "w1", some "W", some "https://example.com/w1", none⟩] ⟨[], [], []⟩ (by decide)

/-- Counterexample to C3: three products where the second's navigation
raises an unexpected (non-timeout) error; the run aborts there, the
second product is not recorded as NOT_FOUND and the third is never
attempted or logged. -/
theorem nav_error_isolation_counterexample :
    run_flow
      (fun u => if u = "https://example.com/b" then pageFatal "boom" else pagePrice "₹50")
      [⟨some "a", some "A", some "https://example.com/a", none⟩,
       ⟨some "b", some "B", some "https://example.com/b", none⟩,
       ⟨some "c", some "C", some "https://example.com/c", none⟩] ⟨[], [], []⟩ =
      RunResult.aborted ⟨[⟨"a", "A", 50⟩], [], []⟩ "boom" := by rfl

/-- C3 (amended). Per-candidate DOM errors are contained inside the
selector loop and a navigation timeout is tolerated (extraction behaves
exactly as on a normal load), but a non-timeout navigation error is not
caught at the pipeline level: it aborts the run at that product, and no
subsequent product is processed or logged. -/
theorem run_flow_nav_error_aborts (world : String → Page) (p : Product)
    (ps : List Product) (st : RunState) (pid name url e : String)
    (hid : p.id = some pid) (hname : p.name = some name) (hurl : p.url = some url)
    (hg : (world url).goto = GotoResult.fatal e) :
    run_flow world (p :: ps) st = RunResult.aborted st e ∧
    (∀ (sh : Bool) (sx : String → SelResult) (ct : Except String String) (u q : String),
      fetch_price_playwright ⟨GotoResult.timeout, sh, sx, ct⟩ u q =
        fetch_price_playwright ⟨GotoResult.ok, sh, sx, ct⟩ u q) := by
  constructor
  · have hf : fetch_price_playwright (world url) url pid = Except.error e := by
      simp [fetch_price_playwright, hg]
    simp [run_flow, processProduct, hid, hname, hurl, hf]
  · intro sh sx ct u q
    rfl

/-- Witness for C3 (amended): a fatal navigation aborts a one-product
run, and a timeout leaves extraction unchanged on a concrete page. -/
theorem run_flow_nav_error_aborts_witness :
    run_flow (fun _ => pageFatal "boom")
      [⟨some "b", some "B", some "https://example.com/b", none⟩] ⟨[], [], []⟩ =
      RunResult.aborted ⟨[], [], []⟩ "boom" ∧
    fetch_price_playwright ⟨GotoResult.timeout, true, pageAbsent.selText, Except.ok ""⟩
        "https://example.com/t" "pt" =
      fetch_price_playwright ⟨GotoResult.ok, true, pageAbsent.selText, Except.ok ""⟩
        "https://example.com/t" "pt" := by
  have h := run_flow_nav_error_aborts (fun _ => pageFatal "boom")
    ⟨some "b", some "B", some "https://example.com/b", none⟩ [] ⟨[], [], []⟩
    "b" "B" "https://example.com/b" "boom" rfl rfl rfl rfl
  exact ⟨h.1, h.2 true pageAbsent.selText (Except.ok "") "https://example.com/t" "pt"⟩

/-- Counterexample to C4: a product with target_price 0 whose extracted
price is 0 satisfies price ≤ target, yet no alert is dispatched,
because Python's `if target and ...` treats a zero target as falsy. -/
theorem alert_zero_target_counterexample :
    run_flow (fun _ => pagePrice "0")
      [⟨some "z", some "Zero", some "https://example.com/z", some 0⟩] ⟨[], [], []⟩ =
      RunResult.completed ⟨[⟨"z", "Zero", 0⟩], [], []⟩ := by rfl

/-- C4 (amended). For a product with a present price and a defined
target, an alert is dispatched if and only if the target is nonzero
(a zero target is falsy and disables alerting, like an absent one) and
the price is at or below it. -/
theorem run_flow_alert_condition (world : String → Page) (p : Product) (st : RunState)
    (pid name url : String) (t pr : Int)
    (hid : p.id = some pid) (hname : p.name = some name) (hurl : p.url = some url)
    (ht : p.target_price = some t)
    (hf : fetch_price_playwright (world url) url pid = Except.ok (some pr)) :
    run_flow world [p] st = RunResult.completed
      ⟨st.log ++ [⟨pid, name, pr⟩],
       st.telegram ++ (if t ≠ 0 ∧ pr ≤ t then [alertMsg name pr t url] else []),
       st.stdout⟩ := by
  have hb : (t != 0 && decide (pr ≤ t)) = true ↔ (t ≠ 0 ∧ pr ≤ t) := by
    simp [Bool.and_eq_true, bne_iff_ne]
  by_cases hc : t ≠ 0 ∧ pr ≤ t
  · have hbool : (t != 0 && decide (pr ≤ t)) = true := hb.mpr hc
    simp [run_flow, processProduct, hid, hname, hurl, ht, hf, hbool, hc]
  · have hbool : (t != 0 && decide (pr ≤ t)) = false := by
      rw [Bool.eq_false_iff]
      intro hx
      exact hc (hb.mp hx)
    simp [run_flow, processProduct, hid, hname, hurl, ht, hf, hbool, hc]

/-- Witness for C4 (amended): price 499 against target 500 logs the row
and dispatches exactly the alert message. -/
theorem run_flow_alert_condition_witness :
    run_flow (fun _ => pagePrice "₹499")
      [⟨some "a4", some "A4", some "https://example.com/a4", some 500⟩] ⟨[], [], []⟩ =
      RunResult.completed ⟨[⟨"a4", "A4", 499⟩],
        [alertMsg "A4" 499 500 "https://example.com/a4"], []⟩ := by
  have h := run_flow_alert_condition (fun _ => pagePrice "₹499")
    ⟨some "a4", some "A4", some "https://example.com/a4", some 500⟩ ⟨[], [], []⟩
    "a4" "A4" "https://example.com/a4" 500 499 rfl rfl rfl rfl (by rfl)
  rw [h]
  decide

/-- Counterexample to C8: a product whose extraction ends in NOT_FOUND
produces no Telegram message at all — only a local console warning —
so the notification channel stays silent. -/
theorem notfound_no_notification_counterexample :
    run_flow (fun _ => pageAbsent)
      [⟨some "g2", some "Gizmo", some "https://example.com/g2", none⟩] ⟨[], [], []⟩ =
      RunResult.completed ⟨[], [], [warnMsg "Gizmo"]⟩ := by rfl

/-- C8 (amended). A NOT_FOUND outcome appends no log row and sends
nothing to the notification channel; the pipeline only prints a warning
line to its own standard output. -/
theorem run_flow_notfound_local_warning (world : String → Page) (p : Product)
    (st : RunState) (pid name url : String)
    (hid : p.id = some pid) (hname : p.name = some name) (hurl : p.url = some url)
    (hf : fetch_price_playwright (world url) url pid = Except.ok none) :
    run_flow world [p] st =
      RunResult.completed ⟨st.log, st.telegram, st.stdout ++ [warnMsg name]⟩ := by
  simp [run_flow, processProduct, hid, hname, hurl, hf]

/-- Witness for C8 (amended): a concrete NOT_FOUND product leaves log
and Telegram untouched and prints one warning. -/
theorem run_flow_notfound_local_warning_witness :
    run_flow (fun _ => pageAbsent)
      [⟨some "g", some "Gadget", some "https://example.com/g", none⟩] ⟨[], [], []⟩ =
      RunResult.completed ⟨[], [], [warnMsg "Gadget"]⟩ :=
  run_flow_notfound_local_warning (fun _ => pageAbsent)
    ⟨some "g", some "Gadget", some "https://example.com/g", none⟩ ⟨[], [], []⟩
    "g" "Gadget" "https://example.com/g" rfl rfl rfl (by rfl)

/-- Counterexample to C9: a configuration whose first product lacks its
url is not skipped with a warning — the run aborts with a KeyError and
the well-formed second product is never processed. -/
theorem missing_url_counterexample :
    run_flow (fun _ => pagePrice "₹50")
      [⟨some "m", some "M", none, none⟩,
       ⟨some "n", some "N", some "https://example.com/n", none⟩] ⟨[], [], []⟩ =
      RunResult.aborted ⟨[], [], []⟩ "KeyError: url" := by rfl

/-- C9 (amended). A product entry missing its url field raises KeyError
when read, which nothing catches: the run aborts at that product with
no warning recorded and no remaining product processed. -/
theorem run_flow_missing_url_aborts (world : String → Page) (p : Product)
    (ps : List Product) (st : RunState) (pid name : String)
    (hid : p.id = some pid) (hname : p.name = some name) (hurl : p.url = none) :
    run_flow world (p :: ps) st = RunResult.aborted st "KeyError: url" := by
  simp [run_flow, processProduct, hid, hname, hurl]

/-- Witness for C9 (amended) at a concrete missing-url product. -/
theorem run_flow_missing_url_aborts_witness :
    run_flow (fun _ => pageAbsent) [⟨some "m2", some "M2", none, some 10⟩] ⟨[], [], []⟩ =
      RunResult.aborted ⟨[], [], []⟩ "KeyError: url" :=
  run_flow_missing_url_aborts (fun _ => pageAbsent)
    ⟨some "m2", some "M2", none, some 10⟩ [] ⟨[], [], []⟩ "m2" "M2" rfl rfl rfl

/-- C10. Sending a notification is total: `send_telegram` always
returns normally — a transport exception is caught inside it and never
propagates to the caller — and with the credentials absent (or falsy)
it is the logged no-op, so the notification channel can never abort
per-product processing. -/
theorem send_telegram_total (env : TelegramEnv) (post : Except String Nat)
    (message : String) :
    neverRaises (send_telegram env post message) = true ∧
    ((truthy env.TELEGRAM_TOKEN && truthy env.TELEGRAM_CHAT_ID) = false →
      send_telegram env post message = Except.ok SendOutcome.notConfigured) := by
  constructor
  · by_cases hc : (truthy env.TELEGRAM_TOKEN && truthy env.TELEGRAM_CHAT_ID) = true
    · cases post <;> simp [send_telegram, neverRaises, hc]
    · rw [Bool.not_eq_true] at hc
      simp [send_telegram, neverRaises, hc]
  · intro hcf
    simp [send_telegram, hcf]

/-- Witness for C10: unset credentials give the logged no-op, and a
raising transport still returns normally when credentials are set. -/
theorem send_telegram_total_witness :
    send_telegram ⟨none, none⟩ (Except.error "connection reset") "hi" =
      Except.ok SendOutcome.notConfigured ∧
    neverRaises (send_telegram ⟨some "tok", some "chat"⟩
      (Except.error "connection reset") "hi") = true :=
  ⟨(send_telegram_total ⟨none, none⟩ (Except.error "connection reset") "hi").2 rfl,
   (send_telegram_total ⟨some "tok", some "chat"⟩ (Except.error "connection reset") "hi").1⟩

end Tracker
